import Mathlib

/-!
# Verification of the Swapit negotiation backend (`src/backend/app.py`)

Shallow embedding of the Flask/Socket.IO backend of the Swapit ticket
negotiation service.  The embedding follows `src/backend/app.py` line by line:

* MongoDB collections (`tickets`, `negotiations`, `messages`) become lists of
  records; `insert_one` is list append, `find_one` is `List.find?` (first
  match, as a Mongo query against the natural-key field).
* The global `session_index` dict-of-dicts becomes an association list from
  negotiation id to a pair of optional connection sids; Python
  `setdefault(nid, {})[k] = v` updates the first entry with the key or
  appends a fresh one.
* Each Socket.IO handler becomes a pure function from server state (plus the
  event payload, the sender's sid where the handler uses `request.sid`, the
  current clock value for `utcnow()`, and an oracle for the Ollama HTTP
  response) to the new server state paired with the list of emitted events.
* `ask_ollama` takes the Ollama HTTP response as `Option String`:
  `some body` is a successful call (the code strips the response text),
  `none` is any raised exception (timeout, transport, non-2xx), for which
  the code returns the fixed fallback string.
-/

namespace Swapit

/-- A ticket document, as built by `upload_ticket`.  The free-form `details`
map is carried in its JSON-serialized form (the mediation handlers only ever
pass it through `json.dumps`). -/
structure Ticket where
  ticketId : String
  sellerId : String
  category : String
  detailsJson : String
  askPrice : Option String
  status : String
  createdAt : Nat
deriving Repr, DecidableEq

/-- A negotiation document, as built by `start_negotiation`. -/
structure Negotiation where
  negotiationId : String
  ticketId : String
  sellerId : String
  buyerId : String
  status : String
  agreedPrice : Option Nat
  createdAt : Nat
  lastUpdate : Nat
deriving Repr, DecidableEq

/-- A message document, exactly the fields written by `store_message`:
`{"negotiationId": ..., "role": ..., "text": ..., "ts": ...}`. -/
structure Message where
  negotiationId : String
  role : String
  text : String
  ts : Nat
deriving Repr, DecidableEq

/-- The per-negotiation record held in the global `session_index`:
Python `{"seller_sid": ..., "buyer_sid": ...}` where either key may be
absent. -/
structure Binding where
  seller_sid : Option String
  buyer_sid : Option String
deriving Repr, DecidableEq

/-- The in-memory `session_index` dict, keyed by negotiation id. -/
abbrev SessionIndex := List (String × Binding)

/-- The whole mutable state of the backend process: the three MongoDB
collections plus the in-memory `session_index`. -/
structure ServerState where
  tickets : List Ticket
  negos : List Negotiation
  messages : List Message
  session_index : SessionIndex
deriving Repr, DecidableEq

/-- Observable outbound effects of one handler invocation, in emission
order.  `systemEv`/`errorEv`/`agentAckEv` are `emit(...)` to the requesting
connection; `agentToSellerEv`/`agentToBuyerEv` are `socketio.emit(..., to=sid)`;
`joinRoomEv` records `join_room(...)`. -/
inductive Event where
  | errorEv (text : String)
  | systemEv (text : String) (target : Option String)
  | joinRoomEv (room : String)
  | agentToSellerEv (message : String) (target : String)
  | agentToBuyerEv (message : String) (target : String)
  | agentAckEv (message : String)
deriving Repr, DecidableEq

/-- The fixed fallback text returned by `ask_ollama` on any exception. -/
def fallbackText : String := "Sorry, I could not process that request."

/-- `ask_ollama(prompt)`: on a successful HTTP call the code returns
`resp.json().get("response", "").strip()`; on any exception it returns the
fallback string.  The HTTP outcome is the oracle argument (the prompt does
not influence which branch runs). -/
def ask_ollama (response : Option String) : String :=
  match response with
  | some body => body.trim
  | none => fallbackText

/-- `room_name(negotiation_id)`. -/
def room_name (negotiationId : String) : String := "neg-" ++ negotiationId

/-- `store_message`: `messages.insert_one({"negotiationId": ..., "role": ...,
"text": ..., "ts": utcnow()})`, i.e. append one document. -/
def store_message (msgs : List Message) (negotiationId role text : String)
    (now : Nat) : List Message :=
  msgs ++ [{ negotiationId := negotiationId, role := role, text := text, ts := now }]

/-- `negos.find_one({"negotiationId": nid})`. -/
def findNego (ns : List Negotiation) (nid : String) : Option Negotiation :=
  ns.find? (fun n => n.negotiationId == nid)

/-- `tickets.find_one({"ticketId": tid})`. -/
def findTicket (ts : List Ticket) (tid : String) : Option Ticket :=
  ts.find? (fun t => t.ticketId == tid)

/-- `session_index.setdefault(nid, {})["seller_sid"] = sid`. -/
def setSellerSid : SessionIndex → String → String → SessionIndex
  | [], nid, sid => [(nid, { seller_sid := some sid, buyer_sid := none })]
  | (k, b) :: rest, nid, sid =>
    if k == nid then (k, { b with seller_sid := some sid }) :: rest
    else (k, b) :: setSellerSid rest nid sid

/-- `session_index.setdefault(nid, {})["buyer_sid"] = sid`. -/
def setBuyerSid : SessionIndex → String → String → SessionIndex
  | [], nid, sid => [(nid, { seller_sid := none, buyer_sid := some sid })]
  | (k, b) :: rest, nid, sid =>
    if k == nid then (k, { b with buyer_sid := some sid }) :: rest
    else (k, b) :: setBuyerSid rest nid sid

/-- `session_index.get(nid, {})` -/
def getBinding (idx : SessionIndex) (nid : String) : Option Binding :=
  (idx.find? (fun p => p.1 == nid)).map Prod.snd

/-- `session_index.get(nid, {}).get("seller_sid")`. -/
def getSellerSid (idx : SessionIndex) (nid : String) : Option String :=
  (getBinding idx nid).bind Binding.seller_sid

/-- `session_index.get(nid, {}).get("buyer_sid")`. -/
def getBuyerSid (idx : SessionIndex) (nid : String) : Option String :=
  (getBinding idx nid).bind Binding.buyer_sid

/-- Python `f"{x}"` for a possibly-`None` value. -/
def pyShow : Option String → String
  | none => "None"
  | some s => s

/-! ## Connection lifecycle handlers -/

/-- `on_connect`: prints and emits one system event; no state change. -/
def on_connect (st : ServerState) : ServerState × List Event :=
  (st, [Event.systemEv "Connected to Swapit mediator." none])

/-- `on_disconnect`: the handler body is a single `print`; it does not touch
`session_index` (or anything else) and emits nothing. -/
def on_disconnect (st : ServerState) (_sid : String) : ServerState × List Event :=
  (st, [])

/-- `join_as_seller(data)` with payload fields `negotiationId`, `sellerId`,
invoked by the connection `sid` (`request.sid`). -/
def join_as_seller (st : ServerState) (sid : String)
    (negotiationId sellerId : String) : ServerState × List Event :=
  match findNego st.negos negotiationId with
  | none => (st, [Event.errorEv "Negotiation not found or seller mismatch."])
  | some nego =>
    if nego.sellerId ≠ sellerId then
      (st, [Event.errorEv "Negotiation not found or seller mismatch."])
    else
      ({ st with session_index := setSellerSid st.session_index negotiationId sid },
       [Event.joinRoomEv (room_name negotiationId),
        Event.systemEv "Seller joined negotiation." (some sid)])

/-- `join_as_buyer(data)` with payload fields `negotiationId`, `buyerId`,
invoked by the connection `sid` (`request.sid`). -/
def join_as_buyer (st : ServerState) (sid : String)
    (negotiationId buyerId : String) : ServerState × List Event :=
  match findNego st.negos negotiationId with
  | none => (st, [Event.errorEv "Negotiation not found or buyer mismatch."])
  | some nego =>
    if nego.buyerId ≠ buyerId then
      (st, [Event.errorEv "Negotiation not found or buyer mismatch."])
    else
      ({ st with session_index := setBuyerSid st.session_index negotiationId sid },
       [Event.joinRoomEv (room_name negotiationId),
        Event.systemEv "Buyer joined negotiation." (some sid)])

/-! ## Mediation handlers -/

/-- Payload of a `buyer_to_agent` event: `negotiationId`, `buyerId`,
`message` (already defaulted to `""` when absent, as `data.get("message", "")`),
and `budget` (`data.get("budget")`, may be `None`). -/
structure BuyerMsg where
  negotiationId : String
  buyerId : String
  message : String
  budget : Option String
deriving Repr, DecidableEq

/-- Payload of a `seller_to_agent` event. -/
structure SellerMsg where
  negotiationId : String
  sellerId : String
  message : String
  minAcceptable : Option String
deriving Repr, DecidableEq

/-- The f-string prompt built in `buyer_to_agent`; `ticket?` is
`tickets.find_one(...)`, whose `or \x7b\x7d` default makes the details dump
`"\x7b\x7d"` and the ask price `None` when the ticket is absent. -/
def buyerPrompt (ticket? : Option Ticket) (text : String)
    (budget : Option String) : String :=
  let detailsJson := match ticket? with
    | some t => t.detailsJson
    | none => "\x7b\x7d"
  let askPrice := match ticket? with
    | some t => t.askPrice
    | none => none
  "\nYou are Swapit\x27s AI mediator. Summarize buyer intent and propose a next step for the SELLER.\nTicket details: "
    ++ detailsJson
    ++ "\nSeller ask price: " ++ pyShow askPrice
    ++ "\nBuyer message: \"" ++ text
    ++ "\"\nBuyer budget: " ++ pyShow budget ++ "\n"

/-- The f-string prompt built in `seller_to_agent`. -/
def sellerPrompt (ticket? : Option Ticket) (text : String)
    (minAcceptable : Option String) : String :=
  let detailsJson := match ticket? with
    | some t => t.detailsJson
    | none => "\x7b\x7d"
  "\nYou are Swapit\x27s AI mediator. Convert SELLER response into a buyer-facing message.\nTicket details: "
    ++ detailsJson
    ++ "\nSeller says: \"" ++ text
    ++ "\"\nSeller minimum acceptable: " ++ pyShow minAcceptable ++ "\n"

/-- The `agent_ack` text sent back to a buyer. -/
def buyerAckText : String := "Noted. I’m checking with the seller now."

/-- The `agent_ack` text sent back to a seller. -/
def sellerAckText : String := "Thanks. I’m relaying this to the buyer."

/-- `buyer_to_agent(data)`: validate negotiation existence and buyer
identity; store the raw buyer message; build the prompt from the ticket;
call Ollama (outcome given by `ollamaResponse`); store the agent message
with the `"(to seller) "` marker; deliver to the seller sid if one is bound;
acknowledge the sender. -/
def buyer_to_agent (st : ServerState) (data : BuyerMsg)
    (ollamaResponse : Option String) (now : Nat) : ServerState × List Event :=
  match findNego st.negos data.negotiationId with
  | none => (st, [Event.errorEv "Negotiation not found or buyer mismatch."])
  | some nego =>
    if nego.buyerId ≠ data.buyerId then
      (st, [Event.errorEv "Negotiation not found or buyer mismatch."])
    else
      let msgs1 := store_message st.messages data.negotiationId "buyer" data.message now
      let ticket? := findTicket st.tickets nego.ticketId
      let _prompt := buyerPrompt ticket? data.message data.budget
      let reply := ask_ollama ollamaResponse
      let msgs2 := store_message msgs1 data.negotiationId "agent" ("(to seller) " ++ reply) now
      let deliver : List Event :=
        match getSellerSid st.session_index data.negotiationId with
        | some ssid => [Event.agentToSellerEv reply ssid]
        | none => []
      ({ st with messages := msgs2 }, deliver ++ [Event.agentAckEv buyerAckText])

/-- `seller_to_agent(data)`: the mirror image of `buyer_to_agent`. -/
def seller_to_agent (st : ServerState) (data : SellerMsg)
    (ollamaResponse : Option String) (now : Nat) : ServerState × List Event :=
  match findNego st.negos data.negotiationId with
  | none => (st, [Event.errorEv "Negotiation not found or seller mismatch."])
  | some nego =>
    if nego.sellerId ≠ data.sellerId then
      (st, [Event.errorEv "Negotiation not found or seller mismatch."])
    else
      let msgs1 := store_message st.messages data.negotiationId "seller" data.message now
      let ticket? := findTicket st.tickets nego.ticketId
      let _prompt := sellerPrompt ticket? data.message data.minAcceptable
      let reply := ask_ollama ollamaResponse
      let msgs2 := store_message msgs1 data.negotiationId "agent" ("(to buyer) " ++ reply) now
      let deliver : List Event :=
        match getBuyerSid st.session_index data.negotiationId with
        | some bsid => [Event.agentToBuyerEv reply bsid]
        | none => []
      ({ st with messages := msgs2 }, deliver ++ [Event.agentAckEv sellerAckText])

/-! ## REST: `start_negotiation` -/

/-- The HTTP response of `POST /start_negotiation`. -/
inductive StartNegoResponse where
  | notFound
  | notAvailable
  | created (nego : Negotiation)
deriving Repr, DecidableEq

/-- The negotiation document built by `start_negotiation` on success;
`freshId` models `str(uuid.uuid4())` and `now` models `utcnow()`. -/
def mkNegotiation (ticketId sellerId buyerId freshId : String)
    (now : Nat) : Negotiation :=
  { negotiationId := freshId, ticketId := ticketId, sellerId := sellerId,
    buyerId := buyerId, status := "open", agreedPrice := none,
    createdAt := now, lastUpdate := now }

/-- `start_negotiation`: 404 if the ticket is absent, 400 if its status is
not `"available"`, otherwise insert and return a fresh open negotiation. -/
def start_negotiation (st : ServerState) (ticketId buyerId freshId : String)
    (now : Nat) : ServerState × StartNegoResponse :=
  match findTicket st.tickets ticketId with
  | none => (st, StartNegoResponse.notFound)
  | some t =>
    if t.status ≠ "available" then (st, StartNegoResponse.notAvailable)
    else
      let nego := mkNegotiation ticketId t.sellerId buyerId freshId now
      ({ st with negos := st.negos ++ [nego] }, StartNegoResponse.created nego)

/-! ## REST: `generate_questions` -/

/-- The names bound at module level in `app.py` by the import block at
lines 1–13: plain imports bind the module name, `from ... import ...` binds
the imported names. -/
def importedNames : List String :=
  ["os", "time", "uuid", "json", "requests", "Flask", "request", "jsonify",
   "CORS", "SocketIO", "emit", "join_room", "leave_room", "MongoClient",
   "Image", "pytesseract", "datetime", "ObjectId"]

/-- The remaining module-level names bound by assignments, `def`s and
decorated handlers in `app.py`. -/
def moduleLevelDefs : List String :=
  ["app", "socketio", "MONGO_URI", "client", "db", "tickets", "negos",
   "messages", "OLLAMA_HOST", "OLLAMA_MODEL", "ask_ollama", "utcnow",
   "room_name", "store_message", "process_ticket", "upload_ticket",
   "list_tickets", "start_negotiation", "generate_questions",
   "session_index", "on_connect", "on_disconnect", "join_as_seller",
   "join_as_buyer", "buyer_to_agent", "seller_to_agent"]

/-- The module global namespace of `app.py`, against which a bare name in a
function body is resolved after its locals. -/
def moduleGlobals : List String := importedNames ++ moduleLevelDefs

/-- Observable outcome of a `GET /generate-questions` request: either a JSON
response body, or an unhandled `NameError` escaping the handler (the
enclosing `try` only guards the JSON-extraction step, not the
`subprocess.run` line). -/
inductive QuestionsOutcome where
  | response (body : String)
  | unhandledNameError (name : String)
deriving Repr, DecidableEq

/-- The f-string prompt built in `generate_questions`. -/
def questionsPrompt (category : String) : String :=
  "\n    Generate exactly 10 seller questions for a " ++ category
    ++ " ticket listing.\n    Respond ONLY in valid JSON like this:\n    [\n      \x7b\"id\": 1, \"question\": \"What is the departure city?\"\x7d,\n      \x7b\"id\": 2, \"question\": \"What is the destination city?\"\x7d\n    ]\n    "

/-- `generate_questions`: reads the category, builds the prompt, then
evaluates `subprocess.run(...)`.  `subprocess` is a bare global name, so its
evaluation first resolves it against `moduleGlobals`; when absent, Python
raises `NameError` there and the handler never reaches its response.
`subprocessStdout` is the stdout the `ollama` child process would produce if
the name did resolve; the subsequent JSON extraction of that branch is not
modelled further because the branch is unreachable. -/
def generate_questions (category : String)
    (subprocessStdout : String) : QuestionsOutcome :=
  let _prompt := questionsPrompt category
  if moduleGlobals.contains "subprocess" then
    QuestionsOutcome.response subprocessStdout
  else
    QuestionsOutcome.unhandledNameError "subprocess"

/-! ## Concrete fixtures used by witnesses and counterexamples -/

/-- An available ticket listed by seller `S1`. -/
def ticket1 : Ticket :=
  { ticketId := "T1", sellerId := "S1", category := "bus",
    detailsJson := "\x7b\"from\": \"A\", \"to\": \"B\"\x7d",
    askPrice := some "500", status := "available", createdAt := 1 }

/-- A sold ticket, for exercising the `InvalidState` branch. -/
def ticketSold : Ticket :=
  { ticketId := "T2", sellerId := "S1", category := "bus",
    detailsJson := "\x7b\x7d", askPrice := some "300", status := "sold",
    createdAt := 1 }

/-- An open negotiation between seller `S1` and buyer `B1` over `T1`. -/
def nego1 : Negotiation :=
  { negotiationId := "N1", ticketId := "T1", sellerId := "S1",
    buyerId := "B1", status := "open", agreedPrice := none,
    createdAt := 2, lastUpdate := 2 }

/-- A closed negotiation with the same parties, over `T1`. -/
def negoClosed : Negotiation :=
  { negotiationId := "N2", ticketId := "T1", sellerId := "S1",
    buyerId := "B1", status := "closed", agreedPrice := none,
    createdAt := 2, lastUpdate := 3 }

/-- A server state holding both negotiations, an empty transcript and an
empty session index. -/
def baseState : ServerState :=
  { tickets := [ticket1, ticketSold], negos := [nego1, negoClosed],
    messages := [], session_index := [] }

/-- `baseState` with a stale seller binding for connection `c1` on `N1`. -/
def stStale : ServerState :=
  { baseState with
    session_index := [("N1", { seller_sid := some "c1", buyer_sid := none })] }

/-! ## Characterization lemmas for the handlers -/

/-- On the accepted path (negotiation found, buyer id matches),
`buyer_to_agent` appends exactly the raw buyer message and the agent
message, delivers to the bound seller sid when present, and acknowledges. -/
theorem buyer_to_agent_accepted (st : ServerState) (data : BuyerMsg)
    (resp : Option String) (now : Nat) (nego : Negotiation)
    (hf : findNego st.negos data.negotiationId = some nego)
    (hid : nego.buyerId = data.buyerId) :
    buyer_to_agent st data resp now =
      ({ st with messages := st.messages ++
          [{ negotiationId := data.negotiationId, role := "buyer",
             text := data.message, ts := now },
           { negotiationId := data.negotiationId, role := "agent",
             text := "(to seller) " ++ ask_ollama resp, ts := now }] },
       (match getSellerSid st.session_index data.negotiationId with
        | some ssid => [Event.agentToSellerEv (ask_ollama resp) ssid]
        | none => []) ++ [Event.agentAckEv buyerAckText]) := by
  unfold buyer_to_agent
  rw [hf]
  simp [hid, store_message]

/-- On the rejected path (negotiation absent or buyer id mismatch),
`buyer_to_agent` leaves the state untouched and emits only the error. -/
theorem buyer_to_agent_rejected (st : ServerState) (data : BuyerMsg)
    (resp : Option String) (now : Nat)
    (h : findNego st.negos data.negotiationId = none ∨
      ∃ nego, findNego st.negos data.negotiationId = some nego ∧
        nego.buyerId ≠ data.buyerId) :
    buyer_to_agent st data resp now =
      (st, [Event.errorEv "Negotiation not found or buyer mismatch."]) := by
  unfold buyer_to_agent
  rcases h with h | ⟨nego, hf, hid⟩
  · rw [h]
  · rw [hf]; simp [hid]

/-- Accepted-path characterization of `seller_to_agent`. -/
theorem seller_to_agent_accepted (st : ServerState) (data : SellerMsg)
    (resp : Option String) (now : Nat) (nego : Negotiation)
    (hf : findNego st.negos data.negotiationId = some nego)
    (hid : nego.sellerId = data.sellerId) :
    seller_to_agent st data resp now =
      ({ st with messages := st.messages ++
          [{ negotiationId := data.negotiationId, role := "seller",
             text := data.message, ts := now },
           { negotiationId := data.negotiationId, role := "agent",
             text := "(to buyer) " ++ ask_ollama resp, ts := now }] },
       (match getBuyerSid st.session_index data.negotiationId with
        | some bsid => [Event.agentToBuyerEv (ask_ollama resp) bsid]
        | none => []) ++ [Event.agentAckEv sellerAckText]) := by
  unfold seller_to_agent
  rw [hf]
  simp [hid, store_message]

/-- Rejected-path characterization of `seller_to_agent`. -/
theorem seller_to_agent_rejected (st : ServerState) (data : SellerMsg)
    (resp : Option String) (now : Nat)
    (h : findNego st.negos data.negotiationId = none ∨
      ∃ nego, findNego st.negos data.negotiationId = some nego ∧
        nego.sellerId ≠ data.sellerId) :
    seller_to_agent st data resp now =
      (st, [Event.errorEv "Negotiation not found or seller mismatch."]) := by
  unfold seller_to_agent
  rcases h with h | ⟨nego, hf, hid⟩
  · rw [h]
  · rw [hf]; simp [hid]

/-- Updating the seller slot of `nid` makes `nid` resolve to the new sid
(both the update and the lookup act on the first entry with the key). -/
theorem getSellerSid_setSellerSid (idx : SessionIndex) (nid sid : String) :
    getSellerSid (setSellerSid idx nid sid) nid = some sid := by
  induction idx with
  | nil => simp [setSellerSid, getSellerSid, getBinding]
  | cons p rest ih =>
    obtain ⟨k, b⟩ := p
    rcases hk : (k == nid) with _ | _
    · simpa [setSellerSid, getSellerSid, getBinding, hk] using ih
    · simp [setSellerSid, getSellerSid, getBinding, hk]

/-- Any `agent_to_seller` delivery emitted by `buyer_to_agent` targets the
sid currently resolved for the seller slot of the message's negotiation. -/
theorem buyer_event_target_resolved (st : ServerState) (data : BuyerMsg)
    (resp : Option String) (now : Nat) (msg tgt : String)
    (h : Event.agentToSellerEv msg tgt ∈ (buyer_to_agent st data resp now).2) :
    getSellerSid st.session_index data.negotiationId = some tgt := by
  rcases hf : findNego st.negos data.negotiationId with _ | nego
  · rw [buyer_to_agent_rejected st data resp now (Or.inl hf)] at h
    simp at h
  · by_cases hid : nego.buyerId = data.buyerId
    · rw [buyer_to_agent_accepted st data resp now nego hf hid] at h
      rcases hsid : getSellerSid st.session_index data.negotiationId with _ | ssid
      · rw [hsid] at h; simp at h
      · rw [hsid] at h
        simp at h
        rw [h.2]
    · rw [buyer_to_agent_rejected st data resp now
        (Or.inr ⟨nego, hf, hid⟩)] at h
      simp at h

/-- A buyer message addressed to the closed negotiation `N2`, with the
correct buyer identity. -/
def closedBuyerMsg : BuyerMsg :=
  { negotiationId := "N2", buyerId := "B1", message := "hi", budget := none }

/-- A seller message addressed to the closed negotiation `N2`, with the
correct seller identity. -/
def closedSellerMsg : SellerMsg :=
  { negotiationId := "N2", sellerId := "S1", message := "price is firm",
    minAcceptable := none }

/-- A well-formed buyer message for the open negotiation `N1`. -/
def openBuyerMsg : BuyerMsg :=
  { negotiationId := "N1", buyerId := "B1", message := "Can you do 400?",
    budget := some "420" }

/-- A well-formed seller message for the open negotiation `N1`. -/
def openSellerMsg : SellerMsg :=
  { negotiationId := "N1", sellerId := "S1", message := "450 minimum",
    minAcceptable := some "450" }

/-- A buyer message for `N1` whose claimed buyer identity is wrong. -/
def impostorBuyerMsg : BuyerMsg :=
  { negotiationId := "N1", buyerId := "B2", message := "hi", budget := none }

/-- A seller message addressed to a nonexistent negotiation. -/
def ghostSellerMsg : SellerMsg :=
  { negotiationId := "NOPE", sellerId := "S1", message := "hi",
    minAcceptable := none }

/-! ## Claims -/

/-- C1 (counterexample): the claim says a party message to an existing but
non-open negotiation fails with `InvalidState` before any transcript write.
On negotiation `N2`, which exists with status `"closed"` and matching buyer
identity, `buyer_to_agent` writes both transcript entries and emits only the
acknowledgement — no error event and no halt. -/
theorem c1_counterexample_closed_negotiation_message_accepted :
    negoClosed.status = "closed" ∧
    findNego baseState.negos "N2" = some negoClosed ∧
    (buyer_to_agent baseState closedBuyerMsg none 5).1.messages =
      [{ negotiationId := "N2", role := "buyer", text := "hi", ts := 5 },
       { negotiationId := "N2", role := "agent",
         text := "(to seller) " ++ fallbackText, ts := 5 }] ∧
    (buyer_to_agent baseState closedBuyerMsg none 5).2 =
      [Event.agentAckEv buyerAckText] := by
  decide

/-- C1 (amended): `buyer_to_agent` and `seller_to_agent` validate only that
the negotiation exists and that the claimed identity matches; the
negotiation's status is never consulted, so a submission to an existing
non-open negotiation with matching identity is accepted — both transcript
entries are written and no error event is emitted. -/
theorem c1_amended_party_message_ignores_status (st : ServerState)
    (bdata : BuyerMsg) (sdata : SellerMsg) (resp : Option String) (now : Nat)
    (nb ns : Negotiation)
    (hbf : findNego st.negos bdata.negotiationId = some nb)
    (hbi : nb.buyerId = bdata.buyerId)
    (_hbs : nb.status ≠ "open")
    (hsf : findNego st.negos sdata.negotiationId = some ns)
    (hsi : ns.sellerId = sdata.sellerId)
    (_hss : ns.status ≠ "open") :
    ((buyer_to_agent st bdata resp now).1.messages =
        st.messages ++
          [{ negotiationId := bdata.negotiationId, role := "buyer",
             text := bdata.message, ts := now },
           { negotiationId := bdata.negotiationId, role := "agent",
             text := "(to seller) " ++ ask_ollama resp, ts := now }] ∧
      ∀ t, Event.errorEv t ∉ (buyer_to_agent st bdata resp now).2) ∧
    ((seller_to_agent st sdata resp now).1.messages =
        st.messages ++
          [{ negotiationId := sdata.negotiationId, role := "seller",
             text := sdata.message, ts := now },
           { negotiationId := sdata.negotiationId, role := "agent",
             text := "(to buyer) " ++ ask_ollama resp, ts := now }] ∧
      ∀ t, Event.errorEv t ∉ (seller_to_agent st sdata resp now).2) := by
  constructor
  · rw [buyer_to_agent_accepted st bdata resp now nb hbf hbi]
    refine ⟨rfl, ?_⟩
    intro t ht
    rcases hsid : getSellerSid st.session_index bdata.negotiationId with _ | ssid <;>
      rw [hsid] at ht <;> simp at ht
  · rw [seller_to_agent_accepted st sdata resp now ns hsf hsi]
    refine ⟨rfl, ?_⟩
    intro t ht
    rcases hsid : getBuyerSid st.session_index sdata.negotiationId with _ | bsid <;>
      rw [hsid] at ht <;> simp at ht

/-- C1 (witness for the amended claim) on the closed negotiation `N2`. -/
theorem c1_amended_witness :
    (((buyer_to_agent baseState closedBuyerMsg none 6).1.messages =
        baseState.messages ++
          [{ negotiationId := "N2", role := "buyer", text := "hi", ts := 6 },
           { negotiationId := "N2", role := "agent",
             text := "(to seller) " ++ fallbackText, ts := 6 }] ∧
      ∀ t, Event.errorEv t ∉ (buyer_to_agent baseState closedBuyerMsg none 6).2) ∧
    ((seller_to_agent baseState closedSellerMsg none 6).1.messages =
        baseState.messages ++
          [{ negotiationId := "N2", role := "seller", text := "price is firm", ts := 6 },
           { negotiationId := "N2", role := "agent",
             text := "(to buyer) " ++ fallbackText, ts := 6 }] ∧
      ∀ t, Event.errorEv t ∉ (seller_to_agent baseState closedSellerMsg none 6).2)) := by
  exact c1_amended_party_message_ignores_status baseState closedBuyerMsg
    closedSellerMsg none 6 negoClosed negoClosed (by decide) (by decide)
    (by decide) (by decide) (by decide) (by decide)

/-- C2 (counterexample): the claim says disconnect removes every binding
referencing the handle.  In a state where connection `c1` is bound as the
seller of `N1`, `on_disconnect` for `c1` leaves the whole state — including
that binding — unchanged. -/
theorem c2_counterexample_disconnect_leaves_binding :
    getSellerSid stStale.session_index "N1" = some "c1" ∧
    on_disconnect stStale "c1" = (stStale, []) ∧
    getSellerSid (on_disconnect stStale "c1").1.session_index "N1" = some "c1" := by
  decide

/-- C2 (amended): the disconnect handler performs no cleanup at all: for
every state and handle it returns the state unchanged and emits nothing, so
bindings referencing a disconnected handle persist until overwritten by a
later join. -/
theorem c2_amended_disconnect_is_noop (st : ServerState) (sid : String) :
    on_disconnect st sid = (st, []) := rfl

/-- C3: every accepted party message appends exactly two transcript entries,
the raw party message with the sender's role first and the agent message
second, and when the Ollama call fails the agent entry carries the fixed
fallback string after its direction marker. -/
theorem c3_exactly_two_entries_with_fallback (st : ServerState)
    (bdata : BuyerMsg) (sdata : SellerMsg) (resp : Option String) (now : Nat)
    (nb ns : Negotiation)
    (hbf : findNego st.negos bdata.negotiationId = some nb)
    (hbi : nb.buyerId = bdata.buyerId)
    (hsf : findNego st.negos sdata.negotiationId = some ns)
    (hsi : ns.sellerId = sdata.sellerId) :
    ((buyer_to_agent st bdata resp now).1.messages =
      st.messages ++
        [{ negotiationId := bdata.negotiationId, role := "buyer",
           text := bdata.message, ts := now },
         { negotiationId := bdata.negotiationId, role := "agent",
           text := "(to seller) " ++ ask_ollama resp, ts := now }]) ∧
    ((seller_to_agent st sdata resp now).1.messages =
      st.messages ++
        [{ negotiationId := sdata.negotiationId, role := "seller",
           text := sdata.message, ts := now },
         { negotiationId := sdata.negotiationId, role := "agent",
           text := "(to buyer) " ++ ask_ollama resp, ts := now }]) ∧
    (resp = none → ask_ollama resp = fallbackText) := by
  refine ⟨?_, ?_, ?_⟩
  · rw [buyer_to_agent_accepted st bdata resp now nb hbf hbi]
  · rw [seller_to_agent_accepted st sdata resp now ns hsf hsi]
  · intro h; rw [h]; rfl

/-- C3 (witness) on negotiation `N1` with a failing Ollama call. -/
theorem c3_witness :
    ((buyer_to_agent baseState openBuyerMsg none 7).1.messages =
      baseState.messages ++
        [{ negotiationId := "N1", role := "buyer", text := "Can you do 400?", ts := 7 },
         { negotiationId := "N1", role := "agent",
           text := "(to seller) " ++ ask_ollama none, ts := 7 }]) ∧
    ((seller_to_agent baseState openSellerMsg none 7).1.messages =
      baseState.messages ++
        [{ negotiationId := "N1", role := "seller", text := "450 minimum", ts := 7 },
         { negotiationId := "N1", role := "agent",
           text := "(to buyer) " ++ ask_ollama none, ts := 7 }]) ∧
    ((none : Option String) = none → ask_ollama none = fallbackText) := by
  exact c3_exactly_two_entries_with_fallback baseState openBuyerMsg
    openSellerMsg none 7 nego1 nego1 (by decide) (by decide) (by decide)
    (by decide)

/-- C4: a party message whose negotiation is absent, or whose claimed
identity does not match the recorded party for its role, leaves the whole
server state (in particular the message store) unchanged and emits exactly
the error event to the sender. -/
theorem c4_mismatch_leaves_store_unchanged (st : ServerState)
    (bdata : BuyerMsg) (sdata : SellerMsg) (resp : Option String) (now : Nat)
    (hb : findNego st.negos bdata.negotiationId = none ∨
      ∃ nego, findNego st.negos bdata.negotiationId = some nego ∧
        nego.buyerId ≠ bdata.buyerId)
    (hs : findNego st.negos sdata.negotiationId = none ∨
      ∃ nego, findNego st.negos sdata.negotiationId = some nego ∧
        nego.sellerId ≠ sdata.sellerId) :
    buyer_to_agent st bdata resp now =
      (st, [Event.errorEv "Negotiation not found or buyer mismatch."]) ∧
    seller_to_agent st sdata resp now =
      (st, [Event.errorEv "Negotiation not found or seller mismatch."]) :=
  ⟨buyer_to_agent_rejected st bdata resp now hb,
   seller_to_agent_rejected st sdata resp now hs⟩

/-- C4 (witness): a wrong buyer identity on `N1` and a nonexistent
negotiation id both bounce with the error event and an unchanged state. -/
theorem c4_witness :
    buyer_to_agent baseState impostorBuyerMsg none 8 =
      (baseState, [Event.errorEv "Negotiation not found or buyer mismatch."]) ∧
    seller_to_agent baseState ghostSellerMsg none 8 =
      (baseState, [Event.errorEv "Negotiation not found or seller mismatch."]) := by
  exact c4_mismatch_leaves_store_unchanged baseState impostorBuyerMsg
    ghostSellerMsg none 8 (Or.inr ⟨nego1, by decide, by decide⟩)
    (Or.inl (by decide))

/-- C5: a join attempt whose negotiation is absent or whose claimed party
identity does not match the stored identity for the claimed role returns
only the error event and leaves the state — in particular the session
binding table — entirely unchanged. -/
theorem c5_join_mismatch_no_binding_change (st : ServerState)
    (sid1 sid2 nidS nidB claimedSeller claimedBuyer : String)
    (hs : findNego st.negos nidS = none ∨
      ∃ n, findNego st.negos nidS = some n ∧ n.sellerId ≠ claimedSeller)
    (hb : findNego st.negos nidB = none ∨
      ∃ n, findNego st.negos nidB = some n ∧ n.buyerId ≠ claimedBuyer) :
    join_as_seller st sid1 nidS claimedSeller =
      (st, [Event.errorEv "Negotiation not found or seller mismatch."]) ∧
    join_as_buyer st sid2 nidB claimedBuyer =
      (st, [Event.errorEv "Negotiation not found or buyer mismatch."]) := by
  constructor
  · unfold join_as_seller
    rcases hs with h | ⟨n, hf, hid⟩
    · rw [h]
    · rw [hf]; simp [hid]
  · unfold join_as_buyer
    rcases hb with h | ⟨n, hf, hid⟩
    · rw [h]
    · rw [hf]; simp [hid]

/-- C5 (witness): joining `N1` as seller with the wrong seller id, and
joining a nonexistent negotiation as buyer, both leave the state unchanged. -/
theorem c5_witness :
    join_as_seller baseState "c7" "N1" "S2" =
      (baseState, [Event.errorEv "Negotiation not found or seller mismatch."]) ∧
    join_as_buyer baseState "c8" "NOPE" "B1" =
      (baseState, [Event.errorEv "Negotiation not found or buyer mismatch."]) := by
  exact c5_join_mismatch_no_binding_change baseState "c7" "c8" "N1" "NOPE"
    "S2" "B1" (Or.inr ⟨nego1, by decide, by decide⟩) (Or.inl (by decide))

/-- Accepted-path characterization of `join_as_seller`. -/
theorem join_as_seller_accepted (st : ServerState) (sid nid sellerId : String)
    (nego : Negotiation) (hf : findNego st.negos nid = some nego)
    (hid : nego.sellerId = sellerId) :
    join_as_seller st sid nid sellerId =
      ({ st with session_index := setSellerSid st.session_index nid sid },
       [Event.joinRoomEv (room_name nid),
        Event.systemEv "Seller joined negotiation." (some sid)]) := by
  unfold join_as_seller
  rw [hf]
  simp [hid]

/-- Accepted-path characterization of `join_as_buyer`. -/
theorem join_as_buyer_accepted (st : ServerState) (sid nid buyerId : String)
    (nego : Negotiation) (hf : findNego st.negos nid = some nego)
    (hid : nego.buyerId = buyerId) :
    join_as_buyer st sid nid buyerId =
      ({ st with session_index := setBuyerSid st.session_index nid sid },
       [Event.joinRoomEv (room_name nid),
        Event.systemEv "Buyer joined negotiation." (some sid)]) := by
  unfold join_as_buyer
  rw [hf]
  simp [hid]

/-- Updating the buyer slot of `nid` makes `nid` resolve to the new sid. -/
theorem getBuyerSid_setBuyerSid (idx : SessionIndex) (nid sid : String) :
    getBuyerSid (setBuyerSid idx nid sid) nid = some sid := by
  induction idx with
  | nil => simp [setBuyerSid, getBuyerSid, getBinding]
  | cons p rest ih =>
    obtain ⟨k, b⟩ := p
    rcases hk : (k == nid) with _ | _
    · simpa [setBuyerSid, getBuyerSid, getBinding, hk] using ih
    · simp [setBuyerSid, getBuyerSid, getBinding, hk]

/-- Any `agent_to_buyer` delivery emitted by `seller_to_agent` targets the
sid currently resolved for the buyer slot of the message's negotiation. -/
theorem seller_event_target_resolved (st : ServerState) (data : SellerMsg)
    (resp : Option String) (now : Nat) (msg tgt : String)
    (h : Event.agentToBuyerEv msg tgt ∈ (seller_to_agent st data resp now).2) :
    getBuyerSid st.session_index data.negotiationId = some tgt := by
  rcases hf : findNego st.negos data.negotiationId with _ | nego
  · rw [seller_to_agent_rejected st data resp now (Or.inl hf)] at h
    simp at h
  · by_cases hid : nego.sellerId = data.sellerId
    · rw [seller_to_agent_accepted st data resp now nego hf hid] at h
      rcases hsid : getBuyerSid st.session_index data.negotiationId with _ | bsid
      · rw [hsid] at h; simp at h
      · rw [hsid] at h
        simp at h
        rw [h.2]
    · rw [seller_to_agent_rejected st data resp now
        (Or.inr ⟨nego, hf, hid⟩)] at h
      simp at h

/-- C6: joining the same seat of a negotiation twice with two handles — for
the seller seat via `join_as_seller` and for the buyer seat via
`join_as_buyer` — leaves only the second handle resolvable for that seat
(last-join-wins; each seat holds at most one handle by construction), and
any subsequent delivery toward that seat (`agent_to_seller` from a buyer
message, `agent_to_buyer` from a seller message) targets the second handle,
never the first one when the two differ. -/
theorem c6_last_join_wins (st : ServerState)
    (nid sellerId buyerId sid1 sid2 bid1 bid2 : String)
    (bdata : BuyerMsg) (sdata : SellerMsg)
    (resp : Option String) (now : Nat) (msg tgtS tgtB : String)
    (nego : Negotiation)
    (hf : findNego st.negos nid = some nego)
    (hsid : nego.sellerId = sellerId)
    (hbid : nego.buyerId = buyerId)
    (hbdata : bdata.negotiationId = nid)
    (hsdata : sdata.negotiationId = nid) :
    (getSellerSid ((join_as_seller (join_as_seller st sid1 nid sellerId).1
        sid2 nid sellerId).1).session_index nid = some sid2 ∧
      (sid1 ≠ sid2 →
        getSellerSid ((join_as_seller (join_as_seller st sid1 nid sellerId).1
          sid2 nid sellerId).1).session_index nid ≠ some sid1) ∧
      (Event.agentToSellerEv msg tgtS ∈
          (buyer_to_agent (join_as_seller (join_as_seller st sid1 nid
            sellerId).1 sid2 nid sellerId).1 bdata resp now).2 →
        tgtS = sid2)) ∧
    (getBuyerSid ((join_as_buyer (join_as_buyer st bid1 nid buyerId).1
        bid2 nid buyerId).1).session_index nid = some bid2 ∧
      (bid1 ≠ bid2 →
        getBuyerSid ((join_as_buyer (join_as_buyer st bid1 nid buyerId).1
          bid2 nid buyerId).1).session_index nid ≠ some bid1) ∧
      (Event.agentToBuyerEv msg tgtB ∈
          (seller_to_agent (join_as_buyer (join_as_buyer st bid1 nid
            buyerId).1 bid2 nid buyerId).1 sdata resp now).2 →
        tgtB = bid2)) := by
  constructor
  · have hj1 : (join_as_seller st sid1 nid sellerId).1 =
        { st with session_index := setSellerSid st.session_index nid sid1 } := by
      rw [join_as_seller_accepted st sid1 nid sellerId nego hf hsid]
    have hf1 : findNego ((join_as_seller st sid1 nid sellerId).1).negos nid =
        some nego := by
      rw [hj1]; exact hf
    have hj2 : (join_as_seller (join_as_seller st sid1 nid sellerId).1
        sid2 nid sellerId).1 =
        { st with session_index :=
            setSellerSid (setSellerSid st.session_index nid sid1) nid sid2 } := by
      rw [join_as_seller_accepted _ sid2 nid sellerId nego hf1 hsid, hj1]
    have hres : getSellerSid ((join_as_seller (join_as_seller st sid1 nid
        sellerId).1 sid2 nid sellerId).1).session_index nid = some sid2 := by
      rw [hj2]
      exact getSellerSid_setSellerSid _ nid sid2
    refine ⟨hres, ?_, ?_⟩
    · intro hne hcon
      rw [hres] at hcon
      exact hne (Option.some.inj hcon).symm
    · intro hmem
      have htr := buyer_event_target_resolved _ bdata resp now msg tgtS hmem
      rw [hbdata, hres] at htr
      exact (Option.some.inj htr).symm
  · have hj1 : (join_as_buyer st bid1 nid buyerId).1 =
        { st with session_index := setBuyerSid st.session_index nid bid1 } := by
      rw [join_as_buyer_accepted st bid1 nid buyerId nego hf hbid]
    have hf1 : findNego ((join_as_buyer st bid1 nid buyerId).1).negos nid =
        some nego := by
      rw [hj1]; exact hf
    have hj2 : (join_as_buyer (join_as_buyer st bid1 nid buyerId).1
        bid2 nid buyerId).1 =
        { st with session_index :=
            setBuyerSid (setBuyerSid st.session_index nid bid1) nid bid2 } := by
      rw [join_as_buyer_accepted _ bid2 nid buyerId nego hf1 hbid, hj1]
    have hres : getBuyerSid ((join_as_buyer (join_as_buyer st bid1 nid
        buyerId).1 bid2 nid buyerId).1).session_index nid = some bid2 := by
      rw [hj2]
      exact getBuyerSid_setBuyerSid _ nid bid2
    refine ⟨hres, ?_, ?_⟩
    · intro hne hcon
      rw [hres] at hcon
      exact hne (Option.some.inj hcon).symm
    · intro hmem
      have htr := seller_event_target_resolved _ sdata resp now msg tgtB hmem
      rw [hsdata, hres] at htr
      exact (Option.some.inj htr).symm

/-- C6 (witness): on `N1`, connections `c1` then `c2` join as seller and
connections `d1` then `d2` join as buyer; each seat resolves only to its
second handle, no longer to the first, and a delivery toward either seat
can only target that second handle. -/
theorem c6_witness :
    (getSellerSid ((join_as_seller (join_as_seller baseState "c1" "N1"
        "S1").1 "c2" "N1" "S1").1).session_index "N1" = some "c2" ∧
      ("c1" ≠ "c2" →
        getSellerSid ((join_as_seller (join_as_seller baseState "c1" "N1"
          "S1").1 "c2" "N1" "S1").1).session_index "N1" ≠ some "c1") ∧
      (Event.agentToSellerEv fallbackText "c9" ∈
          (buyer_to_agent (join_as_seller (join_as_seller baseState "c1" "N1"
            "S1").1 "c2" "N1" "S1").1 openBuyerMsg none 9).2 →
        "c9" = "c2")) ∧
    (getBuyerSid ((join_as_buyer (join_as_buyer baseState "d1" "N1"
        "B1").1 "d2" "N1" "B1").1).session_index "N1" = some "d2" ∧
      ("d1" ≠ "d2" →
        getBuyerSid ((join_as_buyer (join_as_buyer baseState "d1" "N1"
          "B1").1 "d2" "N1" "B1").1).session_index "N1" ≠ some "d1") ∧
      (Event.agentToBuyerEv fallbackText "d9" ∈
          (seller_to_agent (join_as_buyer (join_as_buyer baseState "d1" "N1"
            "B1").1 "d2" "N1" "B1").1 openSellerMsg none 9).2 →
        "d9" = "d2")) := by
  exact c6_last_join_wins baseState "N1" "S1" "B1" "c1" "c2" "d1" "d2"
    openBuyerMsg openSellerMsg none 9 fallbackText "c9" "d9" nego1
    (by decide) (by decide) (by decide) (by decide) (by decide)

/-- C7: when the counterparty seat of an accepted party message has no
bound connection, the only emitted event is the acknowledgement to the
sender (no delivery, no error), and the agent message is still persisted to
the transcript. -/
theorem c7_offline_counterparty_transcript_only (st : ServerState)
    (bdata : BuyerMsg) (sdata : SellerMsg) (resp : Option String) (now : Nat)
    (nb ns : Negotiation)
    (hbf : findNego st.negos bdata.negotiationId = some nb)
    (hbi : nb.buyerId = bdata.buyerId)
    (hbn : getSellerSid st.session_index bdata.negotiationId = none)
    (hsf : findNego st.negos sdata.negotiationId = some ns)
    (hsi : ns.sellerId = sdata.sellerId)
    (hsn : getBuyerSid st.session_index sdata.negotiationId = none) :
    ((buyer_to_agent st bdata resp now).2 = [Event.agentAckEv buyerAckText] ∧
      (buyer_to_agent st bdata resp now).1.messages =
        st.messages ++
          [{ negotiationId := bdata.negotiationId, role := "buyer",
             text := bdata.message, ts := now },
           { negotiationId := bdata.negotiationId, role := "agent",
             text := "(to seller) " ++ ask_ollama resp, ts := now }]) ∧
    ((seller_to_agent st sdata resp now).2 = [Event.agentAckEv sellerAckText] ∧
      (seller_to_agent st sdata resp now).1.messages =
        st.messages ++
          [{ negotiationId := sdata.negotiationId, role := "seller",
             text := sdata.message, ts := now },
           { negotiationId := sdata.negotiationId, role := "agent",
             text := "(to buyer) " ++ ask_ollama resp, ts := now }]) := by
  constructor
  · rw [buyer_to_agent_accepted st bdata resp now nb hbf hbi, hbn]
    exact ⟨rfl, rfl⟩
  · rw [seller_to_agent_accepted st sdata resp now ns hsf hsi, hsn]
    exact ⟨rfl, rfl⟩

/-- C7 (witness) on `N1` in `baseState`, whose session index is empty. -/
theorem c7_witness :
    ((buyer_to_agent baseState openBuyerMsg none 10).2 =
        [Event.agentAckEv buyerAckText] ∧
      (buyer_to_agent baseState openBuyerMsg none 10).1.messages =
        baseState.messages ++
          [{ negotiationId := "N1", role := "buyer",
             text := "Can you do 400?", ts := 10 },
           { negotiationId := "N1", role := "agent",
             text := "(to seller) " ++ ask_ollama none, ts := 10 }]) ∧
    ((seller_to_agent baseState openSellerMsg none 10).2 =
        [Event.agentAckEv sellerAckText] ∧
      (seller_to_agent baseState openSellerMsg none 10).1.messages =
        baseState.messages ++
          [{ negotiationId := "N1", role := "seller",
             text := "450 minimum", ts := 10 },
           { negotiationId := "N1", role := "agent",
             text := "(to buyer) " ++ ask_ollama none, ts := 10 }]) := by
  exact c7_offline_counterparty_transcript_only baseState openBuyerMsg
    openSellerMsg none 10 nego1 nego1 (by decide) (by decide) (by decide)
    (by decide) (by decide) (by decide)

/-- C8: `start_negotiation` returns 404 when the ticket is absent, 400 when
its status is not `"available"`, and otherwise inserts and returns an open
negotiation whose seller id is the ticket's stored seller id and whose buyer
id is the caller-supplied buyer id. -/
theorem c8_start_negotiation_cases (st : ServerState)
    (tid bid fid : String) (now : Nat) :
    (findTicket st.tickets tid = none →
      start_negotiation st tid bid fid now = (st, StartNegoResponse.notFound)) ∧
    (∀ t, findTicket st.tickets tid = some t → t.status ≠ "available" →
      start_negotiation st tid bid fid now =
        (st, StartNegoResponse.notAvailable)) ∧
    (∀ t, findTicket st.tickets tid = some t → t.status = "available" →
      start_negotiation st tid bid fid now =
        ({ st with negos :=
            st.negos ++ [mkNegotiation tid t.sellerId bid fid now] },
         StartNegoResponse.created (mkNegotiation tid t.sellerId bid fid now)) ∧
      (mkNegotiation tid t.sellerId bid fid now).status = "open" ∧
      (mkNegotiation tid t.sellerId bid fid now).sellerId = t.sellerId ∧
      (mkNegotiation tid t.sellerId bid fid now).buyerId = bid) := by
  refine ⟨?_, ?_, ?_⟩
  · intro h
    unfold start_negotiation
    rw [h]
  · intro t hf hs
    unfold start_negotiation
    rw [hf]
    simp [hs]
  · intro t hf hs
    refine ⟨?_, rfl, rfl, rfl⟩
    unfold start_negotiation
    rw [hf]
    simp [hs]

/-- C8 (witness): the three branches on `baseState` — missing ticket, sold
ticket `T2`, available ticket `T1`. -/
theorem c8_witness :
    start_negotiation baseState "T-MISSING" "B9" "F1" 11 =
      (baseState, StartNegoResponse.notFound) ∧
    start_negotiation baseState "T2" "B9" "F1" 11 =
      (baseState, StartNegoResponse.notAvailable) ∧
    start_negotiation baseState "T1" "B9" "F1" 11 =
      ({ baseState with negos :=
          baseState.negos ++ [mkNegotiation "T1" "S1" "B9" "F1" 11] },
       StartNegoResponse.created (mkNegotiation "T1" "S1" "B9" "F1" 11)) := by
  refine ⟨?_, ?_, ?_⟩
  · exact (c8_start_negotiation_cases baseState "T-MISSING" "B9" "F1" 11).1
      (by decide)
  · exact (c8_start_negotiation_cases baseState "T2" "B9" "F1" 11).2.1
      ticketSold (by decide) (by decide)
  · exact ((c8_start_negotiation_cases baseState "T1" "B9" "F1" 11).2.2
      ticket1 (by decide) (by decide)).1

/-- C9 (counterexample): the claim says every stored message carries a role
in \x7bbuyer, seller, mediator\x7d and that mediator messages carry a
direction annotation distinct from the message text.  The agent message
stored for an accepted buyer message has role `"agent"` — outside the
claimed role set — and its direction marker `"(to seller) "` is embedded in
the `text` field itself (the stored document has only the fields
negotiationId, role, text, ts). -/
theorem c9_counterexample_agent_role_and_embedded_direction :
    ((buyer_to_agent baseState openBuyerMsg none 9).1.messages.getLast?).map
        Message.role = some "agent" ∧
    ("agent" : String) ∉ (["buyer", "seller", "mediator"] : List String) ∧
    ((buyer_to_agent baseState openBuyerMsg none 9).1.messages.getLast?).map
        Message.text = some ("(to seller) " ++ fallbackText) := by
  decide

/-- C9 (amended): every stored message carries a negotiation reference, a
timestamp and a role drawn from \x7bbuyer, seller, agent\x7d (the mediator
stores under the role label `"agent"`), and the mediator entry of an
accepted party message marks its direction by the leading `"(to seller) "`
or `"(to buyer) "` marker inside its text field rather than by a separate
field. -/
theorem c9_amended_role_agent_direction_in_text (st : ServerState)
    (bdata : BuyerMsg) (sdata : SellerMsg) (resp : Option String) (now : Nat)
    (nb ns : Negotiation)
    (hbf : findNego st.negos bdata.negotiationId = some nb)
    (hbi : nb.buyerId = bdata.buyerId)
    (hsf : findNego st.negos sdata.negotiationId = some ns)
    (hsi : ns.sellerId = sdata.sellerId) :
    (∀ m ∈ (buyer_to_agent st bdata resp now).1.messages,
      m ∈ st.messages ∨
        (m.negotiationId = bdata.negotiationId ∧ m.ts = now ∧
          (m.role = "buyer" ∨ m.role = "agent"))) ∧
    ((buyer_to_agent st bdata resp now).1.messages.getLast? =
      some { negotiationId := bdata.negotiationId, role := "agent",
             text := "(to seller) " ++ ask_ollama resp, ts := now }) ∧
    (∀ m ∈ (seller_to_agent st sdata resp now).1.messages,
      m ∈ st.messages ∨
        (m.negotiationId = sdata.negotiationId ∧ m.ts = now ∧
          (m.role = "seller" ∨ m.role = "agent"))) ∧
    ((seller_to_agent st sdata resp now).1.messages.getLast? =
      some { negotiationId := sdata.negotiationId, role := "agent",
             text := "(to buyer) " ++ ask_ollama resp, ts := now }) := by
  rw [buyer_to_agent_accepted st bdata resp now nb hbf hbi,
    seller_to_agent_accepted st sdata resp now ns hsf hsi]
  refine ⟨?_, ?_, ?_, ?_⟩
  · intro m hm
    simp only [List.mem_append, List.mem_cons, List.mem_singleton] at hm
    rcases hm with hm | hm | hm | hm
    · exact Or.inl hm
    · subst hm; exact Or.inr ⟨rfl, rfl, Or.inl rfl⟩
    · subst hm; exact Or.inr ⟨rfl, rfl, Or.inr rfl⟩
    · cases hm
  · rw [show st.messages ++
        [({ negotiationId := bdata.negotiationId, role := "buyer",
            text := bdata.message, ts := now } : Message),
         { negotiationId := bdata.negotiationId, role := "agent",
           text := "(to seller) " ++ ask_ollama resp, ts := now }] =
        (st.messages ++
          [{ negotiationId := bdata.negotiationId, role := "buyer",
             text := bdata.message, ts := now }]) ++
          [{ negotiationId := bdata.negotiationId, role := "agent",
             text := "(to seller) " ++ ask_ollama resp, ts := now }] by simp]
    exact List.getLast?_concat _
  · intro m hm
    simp only [List.mem_append, List.mem_cons, List.mem_singleton] at hm
    rcases hm with hm | hm | hm | hm
    · exact Or.inl hm
    · subst hm; exact Or.inr ⟨rfl, rfl, Or.inl rfl⟩
    · subst hm; exact Or.inr ⟨rfl, rfl, Or.inr rfl⟩
    · cases hm
  · rw [show st.messages ++
        [({ negotiationId := sdata.negotiationId, role := "seller",
            text := sdata.message, ts := now } : Message),
         { negotiationId := sdata.negotiationId, role := "agent",
           text := "(to buyer) " ++ ask_ollama resp, ts := now }] =
        (st.messages ++
          [{ negotiationId := sdata.negotiationId, role := "seller",
             text := sdata.message, ts := now }]) ++
          [{ negotiationId := sdata.negotiationId, role := "agent",
             text := "(to buyer) " ++ ask_ollama resp, ts := now }] by simp]
    exact List.getLast?_concat _

/-- C9 (witness for the amended claim) on `N1` with a failing Ollama call. -/
theorem c9_amended_witness :
    (∀ m ∈ (buyer_to_agent baseState openBuyerMsg none 12).1.messages,
      m ∈ baseState.messages ∨
        (m.negotiationId = "N1" ∧ m.ts = 12 ∧
          (m.role = "buyer" ∨ m.role = "agent"))) ∧
    ((buyer_to_agent baseState openBuyerMsg none 12).1.messages.getLast? =
      some { negotiationId := "N1", role := "agent",
             text := "(to seller) " ++ ask_ollama none, ts := 12 }) ∧
    (∀ m ∈ (seller_to_agent baseState openSellerMsg none 12).1.messages,
      m ∈ baseState.messages ∨
        (m.negotiationId = "N1" ∧ m.ts = 12 ∧
          (m.role = "seller" ∨ m.role = "agent"))) ∧
    ((seller_to_agent baseState openSellerMsg none 12).1.messages.getLast? =
      some { negotiationId := "N1", role := "agent",
             text := "(to buyer) " ++ ask_ollama none, ts := 12 }) := by
  exact c9_amended_role_agent_direction_in_text baseState openBuyerMsg
    openSellerMsg none 12 nego1 nego1 (by decide) (by decide) (by decide)
    (by decide)

/-- Helper for C10: no name `subprocess` is bound anywhere at module level
in `app.py`. -/
theorem subprocess_unbound : moduleGlobals.contains "subprocess" = false := by
  decide

/-- C10: every `GET /generate-questions` request resolves the bare name
`subprocess` against the module globals, where it is absent, so the handler
raises an unhandled `NameError` on every invocation and never returns a
question list. -/
theorem c10_generate_questions_always_name_error
    (category stdoutText : String) :
    generate_questions category stdoutText =
      QuestionsOutcome.unhandledNameError "subprocess" := by
  unfold generate_questions
  rw [subprocess_unbound]
  rfl

end Swapit
